import Mathlib

/-!
Verification development for the trips analytics API.

The service exposes five read-only aggregation endpoints over a `trips`
collection plus a health endpoint, with a cached database connection.
This file shallowly embeds the query/aggregation semantics of the handlers
(`routes/trips.js` router module and the standalone `server.js` handlers)
and the connection-manager state machine, and proves the specified
properties about them.

Modelling choices (all spelled out at the definitions):
- a trip document is a record of the fields the pipelines consume;
- Mongo `$hour` / `$dayOfWeek` on a UTC `Date` are computed from a
  seconds-since-epoch timestamp (1=Sunday..7=Saturday convention);
- `$group` output order is unspecified by Mongo, so we fix the
  deterministic order given by `List.dedup` of the key stream; `$sort` is
  a stable insertion sort, one valid refinement of Mongo's sort;
- `$avg` ignores missing values and yields null on an all-missing group
  (`Option ℚ`);
- JavaScript `parseInt(s, 10)` is modelled exactly (leading whitespace,
  optional sign, longest digit prefix, `NaN ↦ none`).
-/

/-- A document of the `trips` collection, restricted to the fields the
pipelines consume.  `start_time` is seconds since the Unix epoch (UTC),
modelling the `start time` Date field; `tripduration` is `none` when the
field is null or absent. -/
structure Trip where
  usertype : String
  tripduration : Option ℚ
  start_time : Nat
  start_station_id : Int
  start_station_name : String
deriving DecidableEq

/-- Mongo `$hour` applied to `start time` (UTC). -/
def hourOf (t : Trip) : Nat := t.start_time / 3600 % 24

/-- Mongo `$dayOfWeek` applied to `start time`: 1=Sunday .. 7=Saturday.
January 1st 1970 was a Thursday, hence the offset 4. -/
def dayOfWeekOf (t : Trip) : Nat := (t.start_time / 86400 + 4) % 7 + 1

/-- Mongo `$avg` over `"$tripduration"`: missing/null values are ignored;
a group with no numeric value averages to null (`none`), never to zero. -/
def avgDur (g : List Trip) : Option ℚ :=
  let vs := g.filterMap (fun t => t.tripduration)
  if vs = [] then none else some (vs.sum / (vs.length : ℚ))

/-- Numeric value of the longest leading run of decimal digits; `none`
when there is no leading digit (JavaScript `NaN`). -/
def digitsVal (cs : List Char) : Option Nat :=
  let ds := cs.takeWhile (fun c => c.isDigit)
  if ds = [] then none
  else some (ds.foldl (fun a c => a * 10 + (c.toNat - 48)) 0)

/-- JavaScript `parseInt(s, 10)`: skip leading whitespace, read an
optional sign and then the longest digit prefix; `none` models `NaN`. -/
def parseIntJS (s : String) : Option Int :=
  let cs := s.toList.dropWhile
    (fun c => c == ' ' || c == '\t' || c == '\n' || c == '\r')
  match cs with
  | '-' :: rest => (digitsVal rest).map (fun n => -(n : Int))
  | '+' :: rest => (digitsVal rest).map (fun n => (n : Int))
  | _ => (digitsVal cs).map (fun n => (n : Int))

/-- Mongo `$group` stage: one output row per distinct key of the input
stream, the row built from the key and the sublist of documents carrying
that key.  Mongo leaves the order of groups unspecified; we fix the
deterministic order produced by `List.dedup` on the key stream. -/
def groupRows {κ ρ : Type} [DecidableEq κ] (key : Trip → κ)
    (mk : κ → List Trip → ρ) (l : List Trip) : List ρ :=
  (l.map key).dedup.map (fun k => mk k (l.filter (fun t => decide (key t = k))))

/-- Output row of endpoint 1.1 after its `$project` stage. -/
structure Row11 where
  usertype : String
  total_Viajes : Nat
  duracion_Promedio : Option ℚ
deriving DecidableEq

/-- Output row of endpoint 1.2 after its `$project` stage. -/
structure Row12 where
  hora : Nat
  total_Viajes : Nat
  duracion_Promedio : Option ℚ
deriving DecidableEq

/-- Output row of endpoint 1.4 after its `$project` stage. -/
structure Row14 where
  estacion_id : Int
  estacion_nombre : String
  total_Salidas : Nat
  duracion_Promedio : Option ℚ
deriving DecidableEq

/-- Output row of endpoint 1.5 after its `$project` stage. -/
structure Row15 where
  hora : Nat
  dia_Semana : Nat
  total_Viajes : Nat
deriving DecidableEq

/-- Pipeline of endpoint 1.1: `$group` by `usertype` with count and mean
duration (no `$sort` stage in the source). -/
def agg_1_1 (l : List Trip) : List Row11 :=
  groupRows (fun t => t.usertype) (fun u g => ⟨u, g.length, avgDur g⟩) l

/-- Sort relation of endpoint 1.2: ascending by `hora`. -/
def r12 (a b : Row12) : Prop := a.hora ≤ b.hora

instance : DecidableRel r12 :=
  fun a b => inferInstanceAs (Decidable (a.hora ≤ b.hora))

instance : IsTotal Row12 r12 := ⟨fun a b => Nat.le_total a.hora b.hora⟩

instance : IsTrans Row12 r12 := ⟨fun _ _ _ => Nat.le_trans⟩

/-- Full pipeline of endpoint 1.2 (before the optional post-filter):
derive `hora`, `$group` by it with count and mean duration, `$sort`
ascending by `hora`. -/
def agg_1_2_full (l : List Trip) : List Row12 :=
  List.insertionSort r12 (groupRows hourOf (fun h g => ⟨h, g.length, avgDur g⟩) l)

/-- Handler of endpoint 1.2: run the full pipeline, then, exactly when the
`hour` query parameter was supplied and `parseInt` gave a number, keep the
rows whose `hora` equals it. -/
def endpoint_1_2 (hourQ : Option String) (l : List Trip) : List Row12 :=
  let rows := agg_1_2_full l
  match hourQ with
  | none => rows
  | some s =>
    match parseIntJS s with
    | none => rows
    | some h => rows.filter (fun r => decide ((r.hora : Int) = h))

/-- Composite `$group` key of endpoint 1.4: (start station id, name). -/
def stationKey (t : Trip) : Int × String :=
  (t.start_station_id, t.start_station_name)

/-- Sort relation of endpoint 1.4: descending by `total_Salidas`. -/
def r14 (a b : Row14) : Prop := b.total_Salidas ≤ a.total_Salidas

instance : DecidableRel r14 :=
  fun a b => inferInstanceAs (Decidable (b.total_Salidas ≤ a.total_Salidas))

instance : IsTotal Row14 r14 := ⟨fun a b => (Nat.le_total b.total_Salidas a.total_Salidas)⟩

instance : IsTrans Row14 r14 := ⟨fun _ _ _ h1 h2 => Nat.le_trans h2 h1⟩

/-- Pipeline of endpoint 1.4 before the `$limit` stage: `$group` by the
composite station key with departure count and mean duration, `$sort`
descending by departure count. -/
def agg_1_4_full (l : List Trip) : List Row14 :=
  List.insertionSort r14
    (groupRows stationKey (fun k g => ⟨k.1, k.2, g.length, avgDur g⟩) l)

/-- The `limit` computation of the 1.4 handler:
`req.query.limit ? Math.max(1, parseInt(req.query.limit, 10)) : 10`.
`none` on the outside means the parameter is absent; the result `none`
models `NaN` (the empty string is the only falsy string value). -/
def effectiveLimit : Option String → Option Int
  | none => some 10
  | some s => if s = "" then some 10 else (parseIntJS s).map (fun n => max 1 n)

/-- Handler of endpoint 1.4: compute the effective limit, then run the
pipeline with a `$limit` stage.  A `NaN` limit makes the `$limit` stage
invalid, which Mongo rejects: the execution errors instead of returning
rows. -/
def endpoint_1_4 (limitQ : Option String) (l : List Trip) :
    Except String (List Row14) :=
  match effectiveLimit limitQ with
  | none => Except.error "el valor de $limit no es un entero valido"
  | some L => Except.ok ((agg_1_4_full l).take L.toNat)

/-- Composite `$group` key of endpoint 1.5: (hour, day of week). -/
def hourDayKey (t : Trip) : Nat × Nat := (hourOf t, dayOfWeekOf t)

/-- Sort relation of endpoint 1.5: descending by `total_Viajes`. -/
def r15 (a b : Row15) : Prop := b.total_Viajes ≤ a.total_Viajes

instance : DecidableRel r15 :=
  fun a b => inferInstanceAs (Decidable (b.total_Viajes ≤ a.total_Viajes))

instance : IsTotal Row15 r15 := ⟨fun a b => (Nat.le_total b.total_Viajes a.total_Viajes)⟩

instance : IsTrans Row15 r15 := ⟨fun _ _ _ h1 h2 => Nat.le_trans h2 h1⟩

/-- Full pipeline of endpoint 1.5 (before the optional post-filters):
derive `hora` and `dia_Semana`, `$group` by the pair with a count,
`$sort` descending by the count. -/
def agg_1_5_full (l : List Trip) : List Row15 :=
  List.insertionSort r15
    (groupRows hourDayKey (fun k g => ⟨k.1, k.2, g.length⟩) l)

/-- Handler of endpoint 1.5: run the full pipeline, then apply the `hour`
filter and the `day` filter, each exactly when the parameter was supplied
and `parseInt` gave a number. -/
def endpoint_1_5 (hourQ dayQ : Option String) (l : List Trip) : List Row15 :=
  let rows := agg_1_5_full l
  let rows1 :=
    match hourQ with
    | none => rows
    | some s =>
      match parseIntJS s with
      | none => rows
      | some h => rows.filter (fun r => decide ((r.hora : Int) = h))
  match dayQ with
  | none => rows1
  | some s =>
    match parseIntJS s with
    | none => rows1
    | some d => rows1.filter (fun r => decide ((r.dia_Semana : Int) = d))

/-! ### Connection manager and handler envelopes

`server.js` carries two versions of the app.  The first (Vercel-oriented)
`connectToDatabase` returns a cached connection unconditionally and feeds
every request through a connection middleware; the second
(Render-oriented) `connectToDatabase` pings the cached connection before
reuse and reconnects when the ping fails.  Both are embedded as state
machines over the module-global `cachedClient`/`cachedDb` pair, with the
outside world (environment variables, liveness of the cached socket,
reachability of the server, identity of a freshly created client) frozen
into an `Env` record for the duration of one call. -/

/-- The module-global mutable cache: `cachedClient` and `cachedDb`,
each either `null` (`none`) or a handle identified by a number. -/
structure ConnState where
  cachedClient : Option Nat
  cachedDb : Option Nat
deriving DecidableEq

/-- The world as seen by one `connectToDatabase` call: whether
`MONGODB_URI` / `DB_NAME` are set, whether a ping on the cached
connection would succeed, whether a fresh connect would succeed, and the
identity the driver would give a freshly created client. -/
structure Env where
  uriSet : Bool
  dbNameSet : Bool
  cachedAlive : Bool
  reachable : Bool
  freshClient : Nat
deriving DecidableEq

/-- Result of a `connectToDatabase` call: the returned client handle, or
the thrown error's message. -/
inductive ConnRes where
  | ok (client : Nat)
  | err (msg : String)
deriving DecidableEq

/-- One `connectToDatabase` call: its result, the cache it leaves behind,
and whether a ping was issued against the cached connection. -/
structure ConnStep where
  res : ConnRes
  st : ConnState
  pinged : Bool
deriving DecidableEq

/-- The fresh-connection tail shared by both variants: throw when
`MONGODB_URI` is unset (note: `DB_NAME` is never checked here — the
driver's `client.db(undefined)` silently falls back to the URI's default
database), otherwise attempt `client.connect()` and cache on success. -/
def connectFresh (env : Env) (st : ConnState) (pinged : Bool) : ConnStep :=
  if env.uriSet = false then
    ⟨ConnRes.err "MONGODB_URI no está configurado", st, pinged⟩
  else if env.reachable then
    ⟨ConnRes.ok env.freshClient, ⟨some env.freshClient, some env.freshClient⟩, pinged⟩
  else
    ⟨ConnRes.err "connect failed", st, pinged⟩

/-- First `connectToDatabase` variant: a cached client/db pair is
returned as is, with no liveness probe. -/
def connectToDatabase1 (env : Env) (st : ConnState) : ConnStep :=
  match st.cachedClient, st.cachedDb with
  | some c, some _ => ⟨ConnRes.ok c, st, false⟩
  | _, _ => connectFresh env st false

/-- Second `connectToDatabase` variant: a cached pair is probed with
`command({ping: 1})`; on success it is reused, on failure both cache
variables are nulled and a fresh connection is attempted. -/
def connectToDatabase2 (env : Env) (st : ConnState) : ConnStep :=
  match st.cachedClient, st.cachedDb with
  | some c, some d =>
    if env.cachedAlive then ⟨ConnRes.ok c, ⟨some c, some d⟩, true⟩
    else connectFresh env ⟨none, none⟩ true
  | _, _ => connectFresh env st false

/-- A JSON error body: the `error` field and the optional `message`
field (`none` models an absent field). -/
structure ErrorBody where
  error : String
  message : Option String
deriving DecidableEq

/-- What a trips handler sends back: a 200 with the result rows, or an
error status with a JSON error body. -/
inductive ApiResponse (ρ : Type) where
  | ok (rows : List ρ)
  | fail (status : Nat) (body : ErrorBody)
deriving DecidableEq

/-- A trips handler of the router module (`routes/trips.js`), reached
through the first variant's connection middleware.  A connection failure
is answered by the middleware with status 500 and a body carrying both
`error` and `message`; a query failure is answered by the router's catch
with status 500 and a body carrying only the `error` field. -/
def routerHandler {ρ : Type} (name : String) (conn : ConnRes)
    (query : Except String (List ρ)) : ApiResponse ρ :=
  match conn with
  | ConnRes.err m =>
    ApiResponse.fail 500 ⟨"Error de conexión a la base de datos", some m⟩
  | ConnRes.ok _ =>
    match query with
    | Except.ok rows => ApiResponse.ok rows
    | Except.error _ =>
      ApiResponse.fail 500 ⟨"Error en la consulta " ++ name, none⟩

/-- A standalone trips handler of the second `server.js` variant: the
connection is acquired inside the handler's try, so connection failures
and query failures land in the same catch, which answers status 500 with
both `error` and `message`. -/
def serverHandler {ρ : Type} (name : String) (conn : ConnRes)
    (query : Except String (List ρ)) : ApiResponse ρ :=
  match conn with
  | ConnRes.err m =>
    ApiResponse.fail 500 ⟨"Error en la consulta " ++ name, some m⟩
  | ConnRes.ok _ =>
    match query with
    | Except.ok rows => ApiResponse.ok rows
    | Except.error m =>
      ApiResponse.fail 500 ⟨"Error en la consulta " ++ name, some m⟩

/-- The full 1.4 handler of the second `server.js` variant: acquire the
connection (second variant), then execute the 1.4 pipeline, whose
`$limit` stage the database rejects when the computed limit is `NaN`. -/
def handler14 (env : Env) (st : ConnState) (limitQ : Option String)
    (l : List Trip) : ApiResponse Row14 :=
  match (connectToDatabase2 env st).res with
  | ConnRes.err m => ApiResponse.fail 500 ⟨"Error en la consulta 1.4", some m⟩
  | ConnRes.ok _ =>
    match endpoint_1_4 limitQ l with
    | Except.ok rows => ApiResponse.ok rows
    | Except.error m => ApiResponse.fail 500 ⟨"Error en la consulta 1.4", some m⟩

/-- Body of a health response: `status` and `database` fields plus the
optional `message` of the error case. -/
structure HealthBody where
  status : String
  database : String
  message : Option String
deriving DecidableEq

/-- What `/api/health` sends back in the first variant: either the
health JSON, or the connection middleware's error JSON. -/
inductive HealthResponse where
  | health (status : Nat) (body : HealthBody)
  | connError (status : Nat) (body : ErrorBody)
deriving DecidableEq

/-- `/api/health` of the second variant: connect (second variant, with
its internal ping), ping once more, and report `ok`/`connected` with
status 200; any failure is caught and answered 503 with an error body.
After a successful `connectToDatabase2` the extra ping is against the
very connection that either just answered a ping or was just
established, so under a fixed `Env` it succeeds. -/
def healthHandler2 (env : Env) (st : ConnState) : Nat × HealthBody :=
  match (connectToDatabase2 env st).res with
  | ConnRes.ok _ => (200, ⟨"ok", "connected", none⟩)
  | ConnRes.err m => (503, ⟨"error", "disconnected", some m⟩)

/-- `/api/health` of the first variant: the connection middleware runs
first (answering 500 on failure); the handler itself issues no probe and
reports `connected` iff `cachedDb` is non-null. -/
def healthEndpoint1 (env : Env) (st : ConnState) : HealthResponse :=
  let c := connectToDatabase1 env st
  match c.res with
  | ConnRes.err m =>
    HealthResponse.connError 500 ⟨"Error de conexión a la base de datos", some m⟩
  | ConnRes.ok _ =>
    HealthResponse.health 200
      ⟨"ok", if c.st.cachedDb.isSome then "connected" else "disconnected", none⟩

/-- The three-trip fixture of the specification's 1.1 example: two
Subscriber trips of durations 100 and 300 and one Customer trip of
duration 200. -/
def fixture_1_1 : List Trip :=
  [⟨"Subscriber", some 100, 0, 1, "Central"⟩,
   ⟨"Subscriber", some 300, 0, 1, "Central"⟩,
   ⟨"Customer", some 200, 0, 1, "Central"⟩]

/-! ### Supporting lemmas

The claims about post-aggregation filtering reduce to three commutation
facts: `dedup` commutes with `filter`, mapping a row constructor that
remembers its key commutes with filtering on the key, and a stable
insertion sort commutes with `filter`. -/

theorem dedup_filter {α : Type} [DecidableEq α] (p : α → Bool) :
    ∀ l : List α, (l.filter p).dedup = l.dedup.filter p
  | [] => rfl
  | a :: l => by
    by_cases hpa : p a
    · rw [List.filter_cons_of_pos hpa]
      by_cases hml : a ∈ l
      · rw [List.dedup_cons_of_mem (List.mem_filter.2 ⟨hml, hpa⟩),
          List.dedup_cons_of_mem hml, dedup_filter p l]
      · have hnf : a ∉ l.filter p := fun hmem => hml (List.mem_filter.1 hmem).1
        rw [List.dedup_cons_of_not_mem hnf, List.dedup_cons_of_not_mem hml,
          List.filter_cons_of_pos hpa, dedup_filter p l]
    · rw [List.filter_cons_of_neg hpa]
      by_cases hml : a ∈ l
      · rw [List.dedup_cons_of_mem hml, dedup_filter p l]
      · rw [List.dedup_cons_of_not_mem hml, List.filter_cons_of_neg hpa,
          dedup_filter p l]

theorem filter_comp_map {α β : Type} (f : α → β) (p : β → Bool) :
    ∀ l : List α, (l.filter (fun a => p (f a))).map f = (l.map f).filter p
  | [] => rfl
  | a :: l => by
    by_cases hpa : p (f a) <;>
      simp [List.filter_cons, hpa, filter_comp_map f p l]

theorem filter_key_map {κ ρ : Type} (F : κ → ρ) (rk : ρ → κ) (p : κ → Bool)
    (h : ∀ k, rk (F k) = k) :
    ∀ ks : List κ, (ks.filter p).map F = (ks.map F).filter (fun x => p (rk x))
  | [] => rfl
  | k :: ks => by
    by_cases hpk : p k <;>
      simp [List.filter_cons, hpk, h, filter_key_map F rk p h ks]

theorem orderedInsert_of_forall {α : Type} (r : α → α → Prop) [DecidableRel r]
    (a : α) : ∀ l : List α, (∀ b ∈ l, r a b) → List.orderedInsert r a l = a :: l
  | [], _ => rfl
  | b :: l, h => by
    simp only [List.orderedInsert]
    rw [if_pos (h b (List.mem_cons_self b l))]

theorem filter_orderedInsert {α : Type} (r : α → α → Prop) [DecidableRel r]
    [IsTrans α r] (p : α → Bool) (a : α) :
    ∀ l : List α, l.Sorted r →
      (List.orderedInsert r a l).filter p =
        if p a then List.orderedInsert r a (l.filter p) else l.filter p
  | [], _ => by
    by_cases hpa : p a <;> simp [hpa]
  | b :: l, hs => by
    have hb : ∀ x ∈ l, r b x := (List.sorted_cons.1 hs).1
    have hl : l.Sorted r := (List.sorted_cons.1 hs).2
    simp only [List.orderedInsert]
    by_cases hab : r a b
    · rw [if_pos hab]
      by_cases hpa : p a
      · rw [if_pos hpa, List.filter_cons_of_pos hpa]
        by_cases hpb : p b
        · rw [List.filter_cons_of_pos hpb]
          simp only [List.orderedInsert]
          rw [if_pos hab]
        · rw [List.filter_cons_of_neg hpb]
          have hall : ∀ x ∈ l.filter p, r a x := fun x hx =>
            IsTrans.trans a b x hab (hb x (List.mem_filter.1 hx).1)
          rw [orderedInsert_of_forall r a (l.filter p) hall]
      · rw [if_neg hpa, List.filter_cons_of_neg hpa]
    · rw [if_neg hab]
      by_cases hpb : p b
      · rw [List.filter_cons_of_pos hpb, filter_orderedInsert r p a l hl,
          List.filter_cons_of_pos hpb]
        by_cases hpa : p a
        · rw [if_pos hpa, if_pos hpa]
          simp only [List.orderedInsert]
          rw [if_neg hab]
        · rw [if_neg hpa, if_neg hpa]
      · rw [List.filter_cons_of_neg hpb, filter_orderedInsert r p a l hl,
          List.filter_cons_of_neg hpb]

theorem filter_insertionSort {α : Type} (r : α → α → Prop) [DecidableRel r]
    [IsTotal α r] [IsTrans α r] (p : α → Bool) :
    ∀ l : List α,
      (List.insertionSort r l).filter p = List.insertionSort r (l.filter p)
  | [] => rfl
  | a :: l => by
    simp only [List.insertionSort]
    rw [filter_orderedInsert r p a _ (List.sorted_insertionSort r l)]
    by_cases hpa : p a
    · rw [if_pos hpa, List.filter_cons_of_pos hpa]
      simp only [List.insertionSort]
      rw [filter_insertionSort r p l]
    · rw [if_neg hpa, List.filter_cons_of_neg hpa, filter_insertionSort r p l]

theorem groupRows_filter {κ ρ : Type} [DecidableEq κ] (key : Trip → κ)
    (mk : κ → List Trip → ρ) (rk : ρ → κ) (hmk : ∀ k g, rk (mk k g) = k)
    (p : κ → Bool) (l : List Trip) :
    groupRows key mk (l.filter (fun t => p (key t))) =
      (groupRows key mk l).filter (fun x => p (rk x)) := by
  unfold groupRows
  rw [filter_comp_map key p l, dedup_filter p (l.map key),
    ← filter_key_map (fun k => mk k (l.filter (fun t => decide (key t = k)))) rk p
      (fun k => hmk k _) ((l.map key).dedup)]
  apply List.map_congr_left
  intro k hk
  have hpk : p k = true := (List.mem_filter.1 hk).2
  congr 1
  rw [List.filter_filter]
  apply List.filter_congr
  intro t ht
  by_cases hkt : key t = k
  · simp [hkt, hpk]
  · simp [hkt]

theorem aggSort_filter {κ ρ : Type} [DecidableEq κ] (key : Trip → κ)
    (mk : κ → List Trip → ρ) (rk : ρ → κ) (r : ρ → ρ → Prop) [DecidableRel r]
    [IsTotal ρ r] [IsTrans ρ r] (hmk : ∀ k g, rk (mk k g) = k) (p : κ → Bool)
    (l : List Trip) :
    (List.insertionSort r (groupRows key mk l)).filter (fun x => p (rk x)) =
      List.insertionSort r (groupRows key mk (l.filter (fun t => p (key t)))) := by
  rw [groupRows_filter key mk rk hmk p l]
  exact filter_insertionSort r (fun x => p (rk x)) (groupRows key mk l)

theorem mem_groupRows {κ ρ : Type} [DecidableEq κ] {key : Trip → κ}
    {mk : κ → List Trip → ρ} {l : List Trip} {x : ρ} :
    x ∈ groupRows key mk l ↔
      ∃ k, k ∈ l.map key ∧ x = mk k (l.filter (fun t => decide (key t = k))) := by
  unfold groupRows
  rw [List.mem_map]
  constructor
  · rintro ⟨k, hk, he⟩
    exact ⟨k, List.mem_dedup.1 hk, he.symm⟩
  · rintro ⟨k, hk, he⟩
    exact ⟨k, List.mem_dedup.2 hk, he.symm⟩

theorem mem_agg_sorted {κ ρ : Type} [DecidableEq κ] {key : Trip → κ}
    {mk : κ → List Trip → ρ} (r : ρ → ρ → Prop) [DecidableRel r] {l : List Trip}
    {x : ρ} :
    x ∈ List.insertionSort r (groupRows key mk l) ↔
      ∃ k, k ∈ l.map key ∧ x = mk k (l.filter (fun t => decide (key t = k))) := by
  rw [List.mem_insertionSort]
  exact mem_groupRows

theorem groupRows_map_key {κ ρ : Type} [DecidableEq κ] (key : Trip → κ)
    (mk : κ → List Trip → ρ) (rk : ρ → κ) (hmk : ∀ k g, rk (mk k g) = k)
    (l : List Trip) : (groupRows key mk l).map rk = (l.map key).dedup := by
  unfold groupRows
  rw [List.map_map]
  have hco : ∀ k ∈ (l.map key).dedup,
      (rk ∘ fun k => mk k (l.filter (fun t => decide (key t = k)))) k = id k :=
    fun k _ => hmk k _
  rw [List.map_congr_left hco, List.map_id]

/-! ### Claim theorems -/

/-- C1: endpoint 1.2 always computes the full `hora` aggregation; when the
`hour` parameter parses to an integer the response is exactly that full
aggregation restricted to the rows whose `hora` equals it, and when the
parameter is absent or non-numeric the full aggregation is returned
unfiltered.  Every row of the full aggregation carries the count and mean
duration of its hour group over the whole collection, and the rows are
sorted ascending by `hora`. -/
theorem endpoint_1_2_semantics (l : List Trip) (s : String) (h : Int) :
    (parseIntJS s = some h →
      endpoint_1_2 (some s) l =
        (agg_1_2_full l).filter (fun x => decide ((x.hora : Int) = h)))
    ∧ (parseIntJS s = none → endpoint_1_2 (some s) l = agg_1_2_full l)
    ∧ endpoint_1_2 none l = agg_1_2_full l
    ∧ List.Sorted r12 (agg_1_2_full l)
    ∧ ∀ x ∈ agg_1_2_full l,
        x.total_Viajes =
          (l.filter (fun t => decide (hourOf t = x.hora))).length ∧
        x.duracion_Promedio =
          avgDur (l.filter (fun t => decide (hourOf t = x.hora))) := by
  refine ⟨?_, ?_, rfl, List.sorted_insertionSort r12 _, ?_⟩
  · intro hp
    simp only [endpoint_1_2, hp]
  · intro hp
    simp only [endpoint_1_2, hp]
  · intro x hx
    obtain ⟨k, hk, rfl⟩ := (mem_agg_sorted r12).1 hx
    exact ⟨rfl, rfl⟩

/-- Witness for C1: on the empty collection with `hour=7` the endpoint
agrees with the filtered full aggregation. -/
theorem endpoint_1_2_semantics_witness :
    endpoint_1_2 (some "7") [] =
      (agg_1_2_full []).filter (fun x => decide ((x.hora : Int) = 7)) :=
  (endpoint_1_2_semantics [] "7" 7).1 (by decide)

/-- C3: endpoint 1.5 always computes the full hour-by-weekday
aggregation, sorted descending by count; the `hour` and `day` filters are
applied post-aggregation, independently, and AND-combine when both are
given; with no parameters every hour-weekday combination occurring in the
collection is present. -/
theorem endpoint_1_5_semantics (l : List Trip) (s1 s2 : String) (h d : Int) :
    (parseIntJS s1 = some h → parseIntJS s2 = some d →
      endpoint_1_5 (some s1) (some s2) l =
        (agg_1_5_full l).filter
          (fun x => decide ((x.hora : Int) = h ∧ (x.dia_Semana : Int) = d)))
    ∧ (parseIntJS s1 = some h →
        endpoint_1_5 (some s1) none l =
          (agg_1_5_full l).filter (fun x => decide ((x.hora : Int) = h)))
    ∧ (parseIntJS s2 = some d →
        endpoint_1_5 none (some s2) l =
          (agg_1_5_full l).filter (fun x => decide ((x.dia_Semana : Int) = d)))
    ∧ (parseIntJS s1 = none → parseIntJS s2 = none →
        endpoint_1_5 (some s1) (some s2) l = agg_1_5_full l)
    ∧ endpoint_1_5 none none l = agg_1_5_full l
    ∧ List.Sorted r15 (agg_1_5_full l)
    ∧ (∀ t ∈ l, ∃ x ∈ agg_1_5_full l,
        x.hora = hourOf t ∧ x.dia_Semana = dayOfWeekOf t)
    ∧ ∀ x ∈ agg_1_5_full l,
        x.total_Viajes =
          (l.filter (fun t =>
            decide (hourDayKey t = (x.hora, x.dia_Semana)))).length := by
  refine ⟨?_, ?_, ?_, ?_, rfl, List.sorted_insertionSort r15 _, ?_, ?_⟩
  · intro h1 h2
    simp only [endpoint_1_5, h1, h2]
    rw [List.filter_filter]
    apply List.filter_congr
    intro x hx
    rw [Bool.decide_and]
    exact Bool.and_comm _ _
  · intro h1
    simp only [endpoint_1_5, h1]
  · intro h2
    simp only [endpoint_1_5, h2]
  · intro h1 h2
    simp only [endpoint_1_5, h1, h2]
  · intro t ht
    exact ⟨_, (mem_agg_sorted r15).2 ⟨hourDayKey t, List.mem_map_of_mem _ ht, rfl⟩,
      rfl, rfl⟩
  · intro x hx
    obtain ⟨k, hk, rfl⟩ := (mem_agg_sorted r15).1 hx
    rfl

/-- Witness for C3: on the empty collection with `hour=10&day=2` the
endpoint agrees with the doubly filtered full aggregation. -/
theorem endpoint_1_5_semantics_witness :
    endpoint_1_5 (some "10") (some "2") [] =
      (agg_1_5_full []).filter
        (fun x => decide ((x.hora : Int) = 10 ∧ (x.dia_Semana : Int) = 2)) :=
  (endpoint_1_5_semantics [] "10" "2" 10 2).1 (by decide) (by decide)

/-- C4: filtering the full aggregation of 1.2 by an hour value (and of
1.5 by an hour or a day value) yields exactly the same rows, counts and
averages included, as running the same aggregation over the pre-filtered
collection: the filtered fields are group keys, not aggregate inputs. -/
theorem post_filter_pre_filter_equiv (l : List Trip) (h d : Int) :
    (agg_1_2_full l).filter (fun x => decide ((x.hora : Int) = h)) =
      agg_1_2_full (l.filter (fun t => decide ((hourOf t : Int) = h)))
    ∧ (agg_1_5_full l).filter (fun x => decide ((x.hora : Int) = h)) =
      agg_1_5_full (l.filter (fun t => decide ((hourOf t : Int) = h)))
    ∧ (agg_1_5_full l).filter (fun x => decide ((x.dia_Semana : Int) = d)) =
      agg_1_5_full (l.filter (fun t => decide ((dayOfWeekOf t : Int) = d))) := by
  refine ⟨?_, ?_, ?_⟩
  · exact aggSort_filter hourOf (fun k g => ⟨k, g.length, avgDur g⟩) Row12.hora
      r12 (fun k g => rfl) (fun k => decide ((k : Int) = h)) l
  · exact aggSort_filter hourDayKey (fun k g => ⟨k.1, k.2, g.length⟩)
      (fun x => (x.hora, x.dia_Semana)) r15 (fun k g => rfl)
      (fun k => decide ((k.1 : Int) = h)) l
  · exact aggSort_filter hourDayKey (fun k g => ⟨k.1, k.2, g.length⟩)
      (fun x => (x.hora, x.dia_Semana)) r15 (fun k g => rfl)
      (fun k => decide ((k.2 : Int) = d)) l

/-- C2: endpoint 1.4 defaults the limit to 10 when the parameter is
absent and clamps any parsed integer at or below zero to 1 (so `limit=0`
behaves exactly like `limit=1`); for every effective limit the result is
the station aggregation — one row per distinct (station id, name) pair
carrying the group's departure count and mean duration — sorted
descending by departure count and truncated to the limit, reaching the
limit exactly when at least that many distinct stations exist. -/
theorem endpoint_1_4_semantics (l : List Trip) (s : String) (q : Option String)
    (n L : Int) (rows : List Row14) :
    effectiveLimit none = some 10
    ∧ (parseIntJS s = some n → n ≤ 0 → effectiveLimit (some s) = some 1)
    ∧ endpoint_1_4 (some "0") l = endpoint_1_4 (some "1") l
    ∧ (effectiveLimit q = some L → endpoint_1_4 q l = Except.ok rows →
        rows.length ≤ L.toNat
        ∧ (L.toNat ≤ ((l.map stationKey).dedup).length → rows.length = L.toNat)
        ∧ List.Sorted r14 rows
        ∧ (rows.map (fun x => (x.estacion_id, x.estacion_nombre))).Nodup
        ∧ ∀ x ∈ rows,
            x.total_Salidas = (l.filter (fun t =>
              decide (stationKey t = (x.estacion_id, x.estacion_nombre)))).length
            ∧ x.duracion_Promedio = avgDur (l.filter (fun t =>
              decide (stationKey t = (x.estacion_id, x.estacion_nombre))))) := by
  refine ⟨rfl, ?_, rfl, ?_⟩
  · intro hp hn
    have hemp : parseIntJS "" = none := by decide
    have hs : ¬ s = "" := by
      intro he
      rw [he, hemp] at hp
      exact Option.noConfusion hp
    have hmax : max 1 n = 1 := max_eq_left (by omega)
    simp [effectiveLimit, if_neg hs, hp, hmax]
  · intro hL hrows
    simp only [endpoint_1_4, hL, Except.ok.injEq] at hrows
    subst hrows
    refine ⟨?_, ?_, ?_, ?_, ?_⟩
    · rw [List.length_take]
      exact Nat.min_le_left _ _
    · intro hge
      have hlen : (agg_1_4_full l).length = ((l.map stationKey).dedup).length := by
        unfold agg_1_4_full
        rw [(List.perm_insertionSort r14 _).length_eq]
        unfold groupRows
        rw [List.length_map]
      rw [List.length_take, hlen]
      exact Nat.min_eq_left hge
    · exact List.Pairwise.sublist (List.take_sublist _ _)
        (List.sorted_insertionSort r14 _)
    · have hnd : ((agg_1_4_full l).map
          (fun x => (x.estacion_id, x.estacion_nombre))).Nodup := by
        have h2 : ((groupRows stationKey
            (fun k g => (⟨k.1, k.2, g.length, avgDur g⟩ : Row14)) l).map
              (fun x => (x.estacion_id, x.estacion_nombre))).Nodup := by
          rw [groupRows_map_key stationKey _ _ (fun k g => rfl)]
          exact List.nodup_dedup _
        exact ((List.perm_insertionSort r14 _).map
          (fun x => (x.estacion_id, x.estacion_nombre))).nodup_iff.2 h2
      exact List.Nodup.sublist ((List.take_sublist _ _).map _) hnd
    · intro x hx
      obtain ⟨k, hk, rfl⟩ := (mem_agg_sorted r14).1 (List.mem_of_mem_take hx)
      exact ⟨rfl, rfl⟩

/-- Witness for C2: a parsed limit of -5 clamps to 1, and with limit 3 on
the empty collection the result is the empty row list, within the bound. -/
theorem endpoint_1_4_semantics_witness :
    effectiveLimit (some "-5") = some 1 ∧ ([] : List Row14).length ≤ (3 : Int).toNat :=
  ⟨(endpoint_1_4_semantics [] "-5" (some "3") (-5) 3 []).2.1 (by decide) (by decide),
   ((endpoint_1_4_semantics [] "-5" (some "3") (-5) 3 []).2.2.2 (by decide) rfl).1⟩

/-- C8: endpoint 1.1 groups by `usertype` with count and mean duration:
on the specification's three-trip fixture it contains the Subscriber row
(2 trips, average 200) and the Customer row (1 trip, average 200); and a
group whose durations are all null/absent averages to null, never to
zero. -/
theorem endpoint_1_1_usertype_aggregation :
    (⟨"Subscriber", 2, some 200⟩ : Row11) ∈ agg_1_1 fixture_1_1
    ∧ (⟨"Customer", 1, some 200⟩ : Row11) ∈ agg_1_1 fixture_1_1
    ∧ ∀ (l : List Trip) (x : Row11), x ∈ agg_1_1 l →
        (∀ t ∈ l, t.usertype = x.usertype → t.tripduration = none) →
        x.duracion_Promedio = none := by
  have hagg : agg_1_1 fixture_1_1 =
      [⟨"Subscriber", 2, some 200⟩, ⟨"Customer", 1, some 200⟩] := by
    simp +decide [agg_1_1, groupRows, avgDur, fixture_1_1, List.dedup]
    norm_num
  refine ⟨by rw [hagg]; simp, by rw [hagg]; simp, ?_⟩
  intro l x hx hnull
  obtain ⟨k, hk, rfl⟩ := mem_groupRows.1 hx
  have hnil : (l.filter (fun t => decide (t.usertype = k))).filterMap
      (fun t => t.tripduration) = [] := by
    rw [List.filterMap_eq_nil_iff]
    intro t ht
    have h1 := List.mem_filter.1 ht
    exact hnull t h1.1 (of_decide_eq_true h1.2)
  show avgDur (l.filter (fun t => decide (t.usertype = k))) = none
  simp [avgDur, hnil]

/-- Witness for C8: a single-trip group with a null duration produces a
null average. -/
theorem endpoint_1_1_usertype_aggregation_witness :
    (⟨"Guest", 1, none⟩ : Row11).duracion_Promedio = none :=
  endpoint_1_1_usertype_aggregation.2.2 [⟨"Guest", none, 0, 1, "x"⟩]
    ⟨"Guest", 1, none⟩ (by decide) (by decide)

/-- C10: when the `limit` parameter is present, non-empty and unparsable,
the computed limit is NaN (`Math.max(1, NaN)`), so the `$limit` stage is
invalid and the 1.4 request is answered with the 500 error response — it
does not fall back to the default of 10 nor clamp to 1. -/
theorem endpoint_1_4_nan_limit (q : String) (l : List Trip) (env : Env)
    (st : ConnState) (hp : parseIntJS q = none) (hq : q ≠ "") :
    effectiveLimit (some q) = none
    ∧ ∃ m, handler14 env st (some q) l =
        ApiResponse.fail 500 ⟨"Error en la consulta 1.4", some m⟩ := by
  have hL : effectiveLimit (some q) = none := by
    simp [effectiveLimit, hq, hp]
  refine ⟨hL, ?_⟩
  unfold handler14
  cases hres : (connectToDatabase2 env st).res with
  | err m => exact ⟨m, rfl⟩
  | ok c =>
    simp only [endpoint_1_4, hL]
    exact ⟨_, rfl⟩

/-- Witness for C10: `limit=abc` yields a NaN effective limit. -/
theorem endpoint_1_4_nan_limit_witness :
    effectiveLimit (some "abc") = none :=
  (endpoint_1_4_nan_limit "abc" [] ⟨true, true, true, true, 0⟩ ⟨none, none⟩
    (by decide) (by decide)).1

/-- C5 (amended): the second `connectToDatabase` variant always probes a
cached connection with a ping before reuse, returns the cached handle
exactly when the probe succeeds, and on probe failure discards both cache
variables and proceeds to a fresh connection attempt.  (The first
variant, refuted separately, returns the cached handle with no probe.) -/
theorem connectToDatabase2_probes_cache (env : Env) (c d : Nat)
    (hne : env.freshClient ≠ c) :
    (connectToDatabase2 env ⟨some c, some d⟩).pinged = true
    ∧ (env.cachedAlive = true →
        connectToDatabase2 env ⟨some c, some d⟩ =
          ⟨ConnRes.ok c, ⟨some c, some d⟩, true⟩)
    ∧ (env.cachedAlive = false →
        connectToDatabase2 env ⟨some c, some d⟩ =
          connectFresh env ⟨none, none⟩ true)
    ∧ ∀ x, (connectToDatabase2 env ⟨some c, some d⟩).res = ConnRes.ok x →
        x = c → env.cachedAlive = true := by
  obtain ⟨u, nm, al, re, f⟩ := env
  simp only [ne_eq] at hne
  cases al <;> cases u <;> cases re <;>
    simp [connectToDatabase2, connectFresh, hne]

/-- Witness for C5: with a live cached pair (7, 7) the second variant
pings and reuses it. -/
theorem connectToDatabase2_probes_cache_witness :
    (connectToDatabase2 ⟨true, true, true, true, 8⟩ ⟨some 7, some 7⟩).pinged = true :=
  (connectToDatabase2_probes_cache ⟨true, true, true, true, 8⟩ 7 7 (by decide)).1

/-- Counterexample for C5 as stated: the first `connectToDatabase`
variant, called with a cached pair whose connection is dead
(`cachedAlive = false`), returns the cached client 7 without issuing any
probe (`pinged = false`) and keeps the stale cache. -/
theorem connectToDatabase1_skips_probe :
    connectToDatabase1 ⟨true, true, false, false, 8⟩ ⟨some 7, some 7⟩ =
      ⟨ConnRes.ok 7, ⟨some 7, some 7⟩, false⟩ := rfl

/-- C6 (amended): starting from an empty cache, both `connectToDatabase`
variants throw the configuration error when `MONGODB_URI` is unset.
(That `DB_NAME` alone is never checked is refuted separately.) -/
theorem connect_requires_uri (env : Env) (h : env.uriSet = false) :
    (connectToDatabase1 env ⟨none, none⟩).res =
      ConnRes.err "MONGODB_URI no está configurado"
    ∧ (connectToDatabase2 env ⟨none, none⟩).res =
      ConnRes.err "MONGODB_URI no está configurado" := by
  constructor <;> simp [connectToDatabase1, connectToDatabase2, connectFresh, h]

/-- Witness for C6: with neither variable set the first variant throws
the configuration error. -/
theorem connect_requires_uri_witness :
    (connectToDatabase1 ⟨false, false, true, true, 0⟩ ⟨none, none⟩).res =
      ConnRes.err "MONGODB_URI no está configurado" :=
  (connect_requires_uri ⟨false, false, true, true, 0⟩ rfl).1

/-- Counterexample for C6 as stated: with `MONGODB_URI` set but `DB_NAME`
unset (`dbNameSet = false`), both variants connect successfully instead
of raising a configuration error — `DB_NAME` is never validated inside
`connectToDatabase`. -/
theorem connect_ignores_missing_db_name :
    (connectToDatabase1 ⟨true, false, true, true, 5⟩ ⟨none, none⟩).res =
      ConnRes.ok 5
    ∧ (connectToDatabase2 ⟨true, false, true, true, 5⟩ ⟨none, none⟩).res =
      ConnRes.ok 5 :=
  ⟨rfl, rfl⟩

/-- C7 (amended): in the standalone `server.js` handlers every failure —
connection or query — is answered with status 500 and a body carrying
both `error` and `message`; in the router module a connection failure is
answered by the middleware with both fields, but a query failure is
answered with only the `error` field and no `message`. -/
theorem handler_error_translation (ρ : Type) (name m : String) (c : Nat)
    (rows : List ρ) (query : Except String (List ρ)) :
    serverHandler name (ConnRes.err m) query =
      ApiResponse.fail 500 ⟨"Error en la consulta " ++ name, some m⟩
    ∧ serverHandler name (ConnRes.ok c) (Except.error m : Except String (List ρ)) =
      ApiResponse.fail 500 ⟨"Error en la consulta " ++ name, some m⟩
    ∧ serverHandler name (ConnRes.ok c) (Except.ok rows) = ApiResponse.ok rows
    ∧ routerHandler name (ConnRes.err m) query =
      ApiResponse.fail 500 ⟨"Error de conexión a la base de datos", some m⟩
    ∧ routerHandler name (ConnRes.ok c) (Except.error m : Except String (List ρ)) =
      ApiResponse.fail 500 ⟨"Error en la consulta " ++ name, none⟩
    ∧ routerHandler name (ConnRes.ok c) (Except.ok rows) = ApiResponse.ok rows :=
  ⟨rfl, rfl, rfl, rfl, rfl, rfl⟩

/-- Counterexample for C7 as stated: a query failure in the router
module's 1.1 handler is answered with a body whose `message` field is
absent (`none`), so not every failure body carries a `message`. -/
theorem router_catch_drops_message :
    (routerHandler "1.1" (ConnRes.ok 1) (Except.error "boom") :
        ApiResponse Row11) =
      ApiResponse.fail 500 ⟨"Error en la consulta 1.1", none⟩ := rfl

/-- C9 (amended): the second variant's `/api/health` reports 200 with
`ok`/`connected` when the database answers, and 503 with an error body —
never a thrown exception — when it does not.  The first variant's health
route reports 200 `ok`/`connected` after the middleware connects, and the
middleware answers 500 with an error body when connecting fails; but with
a cached pair present the first variant reports `connected` without any
probe, whatever the database's actual state (refuted separately). -/
theorem health_reporting (env : Env) (st : ConnState) :
    (env.uriSet = true → env.reachable = true → env.cachedAlive = true →
      healthHandler2 env st = (200, ⟨"ok", "connected", none⟩))
    ∧ (env.cachedAlive = false → env.reachable = false →
        ∃ m, healthHandler2 env st = (503, ⟨"error", "disconnected", some m⟩))
    ∧ ((healthHandler2 env st).1 = 200 ∨ (healthHandler2 env st).1 = 503)
    ∧ (env.uriSet = true → env.reachable = true →
        healthEndpoint1 env ⟨none, none⟩ =
          HealthResponse.health 200 ⟨"ok", "connected", none⟩)
    ∧ (env.reachable = false →
        ∃ m1 m2, healthEndpoint1 env ⟨none, none⟩ =
          HealthResponse.connError 500 ⟨m1, some m2⟩)
    ∧ ∀ c d : Nat, healthEndpoint1 env ⟨some c, some d⟩ =
        HealthResponse.health 200 ⟨"ok", "connected", none⟩ := by
  obtain ⟨u, nm, al, re, f⟩ := env
  obtain ⟨sc, sd⟩ := st
  cases u <;> cases al <;> cases re <;> cases sc <;> cases sd <;>
    simp [healthHandler2, healthEndpoint1, connectToDatabase2,
      connectToDatabase1, connectFresh]

/-- Witness for C9: with the database reachable and no cache, the second
variant's health endpoint answers 200 `ok`/`connected`. -/
theorem health_reporting_witness :
    healthHandler2 ⟨true, true, true, true, 0⟩ ⟨none, none⟩ =
      (200, ⟨"ok", "connected", none⟩) :=
  (health_reporting ⟨true, true, true, true, 0⟩ ⟨none, none⟩).1 rfl rfl rfl

/-- Counterexample for C9 as stated: with a stale cached pair and the
database unreachable, the first variant's health endpoint still answers
200 `ok`/`connected` instead of an error status. -/
theorem health1_ok_despite_unreachable :
    healthEndpoint1 ⟨true, true, false, false, 8⟩ ⟨some 7, some 7⟩ =
      HealthResponse.health 200 ⟨"ok", "connected", none⟩ := rfl
